import Mathlib

/-!
Verification of the clawdis cron execution core against its specification.

The definitions below are a shallow embedding of the TypeScript module
holding resolveDeliveryTarget, resolveCronSession, pickSummaryFromOutput,
pickSummaryFromPayloads and runCronIsolatedAgentTurn, and of the Swift
CronJobEditor.buildPayload validator. Stateful collaborators (the durable
session store, the external agent invocation, the per-surface send
functions, the templating and chunking helpers, Date.now and
crypto.randomUUID) are passed in explicitly: the loaded store is a
parameter, outbound effects are recorded as an event trace, and external
outcomes are oracles.
-/

/-- Whitespace recognized by the trim operations of the source (the JS
String.prototype.trim set restricted to the characters that occur in this
development: blanks, tabs, line and page breaks, no-break space, BOM and
the line or paragraph separators). -/
def isTrimmableWhitespace (c : Char) : Bool :=
  c == ' ' || c == '\t' || c == '\n' || c == '\r' || c == '\u000b' ||
  c == '\u000c' || c == '\u00a0' || c == '\ufeff' || c == '\u2028' || c == '\u2029'

/-- Embedding of the trim operation used throughout the source: drop leading
and trailing whitespace. -/
def trim (s : String) : String :=
  String.mk (((s.data.dropWhile isTrimmableWhitespace).reverse.dropWhile
    isTrimmableWhitespace).reverse)

/-- Modelled from the spec: normalizeE164 is imported from ../utils.js, which
is not among the provided sources. The spec (§4.5) only requires that a
candidate recipient be normalized to E.164 form before the allowlist
comparison; we model the conventional normalization that keeps the digits and
prefixes a plus sign. A value is then a valid number exactly when its length
exceeds 1, matching the filter in resolveDeliveryTarget. -/
def normalizeE164 (raw : String) : String :=
  "+" ++ String.mk (raw.data.filter Char.isDigit)

/-- One reply payload produced by the external agent invocation
(runCommandReply): optional text and optional media attachments. -/
structure ReplyPayload where
  text : Option String := none
  mediaUrl : Option String := none
  mediaUrls : Option (List String) := none
deriving DecidableEq, Repr

/-- Embedding of pickSummaryFromOutput: trim the text, return nothing when
empty, truncate to 2000 characters and append an ellipsis when longer. -/
def pickSummaryFromOutput (text : Option String) : Option String :=
  let clean := trim (text.getD "")
  if clean = "" then none
  else if clean.length > 2000 then some (String.mk (clean.data.take 2000) ++ "…")
  else some clean

/-- Embedding of pickSummaryFromPayloads: scan the payloads from the last to
the first and return the first summary pickSummaryFromOutput yields. -/
def pickSummaryFromPayloads (payloads : List ReplyPayload) : Option String :=
  payloads.reverse.findSome? fun p => pickSummaryFromOutput p.text

/-- The summary runCronIsolatedAgentTurn extracts: pickSummaryFromPayloads
over every payload, falling back to pickSummaryFromOutput of the first
payload text. -/
def summaryOfPayloads (payloads : List ReplyPayload) : Option String :=
  match pickSummaryFromPayloads payloads with
  | some s => some s
  | none => pickSummaryFromOutput (some ((payloads.head?.bind ReplyPayload.text).getD ""))

/-- The channels a session last route can carry, per the repository
surfaces: the three deliverable surfaces plus the non-deliverable web
surface. -/
inductive Channel where
  | whatsapp
  | telegram
  | discord
  | webchat
deriving DecidableEq, Repr

/-- The channels a cron delivery can actually target. -/
inductive DeliveryChannel where
  | whatsapp
  | telegram
  | discord
deriving DecidableEq, Repr

/-- The channel field of an agentTurn payload: a concrete surface or the
marker asking for the last used route. -/
inductive ReqChannel where
  | last
  | whatsapp
  | telegram
  | discord
deriving DecidableEq, Repr

/-- Embedding of SessionEntry from config/sessions: the persisted per-key
session record. Optional fields are Option-valued as in the TypeScript
type. -/
structure SessionEntry where
  sessionId : String
  updatedAt : Int
  systemSent : Option Bool := none
  thinkingLevel : Option String := none
  verboseLevel : Option String := none
  model : Option String := none
  contextTokens : Option Int := none
  lastChannel : Option Channel := none
  lastTo : Option String := none
  syncing : Option Bool := none
deriving DecidableEq, Repr

/-- The loaded session store: the keyed map loadSessionStore returns,
embedded as an association list. -/
abbrev SessionStore := List (String × SessionEntry)

/-- Reading one key of the loaded store. -/
def lookupStore : SessionStore → String → Option SessionEntry
  | [], _ => none
  | (k, e) :: rest, key => if k = key then some e else lookupStore rest key

/-- Writing one key of the store, as the assignment store[key] = entry. -/
def setStore : SessionStore → String → SessionEntry → SessionStore
  | [], key, e => [(key, e)]
  | (k, v) :: rest, key, e =>
      if k = key then (key, e) :: rest else (k, v) :: setStore rest key e

/-- Embedding of the session block of the reply configuration. -/
structure SessionCfg where
  store : Option String := none
  mainKey : Option String := none
  idleMinutes : Option Int := none
  sendSystemOnce : Option Bool := none
  sessionIntro : Option String := none
deriving DecidableEq, Repr

/-- Embedding of the inbound reply configuration. The bodyPrefix template of
the source is carried as bodyPrefixTpl. -/
structure ReplyCfg where
  mode : String
  command : Option (List String) := none
  session : Option SessionCfg := none
  bodyPrefixTpl : Option String := none
  thinkingDefault : Option String := none
  timeoutSeconds : Option Int := none
deriving DecidableEq, Repr

/-- Embedding of the inbound configuration block. -/
structure InboundCfg where
  reply : Option ReplyCfg := none
  allowFrom : Option (List String) := none
deriving DecidableEq, Repr

/-- Embedding of ClawdisConfig, restricted to the fields the cron runner
reads. -/
structure ClawdisConfig where
  inbound : Option InboundCfg := none
deriving DecidableEq, Repr

/-- cfg.inbound?.reply?.session as read by the source. -/
def sessionCfgOf (cfg : ClawdisConfig) : Option SessionCfg :=
  (cfg.inbound.bind InboundCfg.reply).bind ReplyCfg.session

/-- cfg.inbound?.allowFrom ?? [], the raw WhatsApp allowlist. -/
def allowFromOf (cfg : ClawdisConfig) : List String :=
  (cfg.inbound.bind InboundCfg.allowFrom).getD []

/-- The normalized allowlist resolveDeliveryTarget compares against: each
raw entry normalized to E.164 and kept only when longer than the bare plus
sign. -/
def normalizedAllowFrom (cfg : ClawdisConfig) : List String :=
  ((allowFromOf cfg).map normalizeE164).filter fun v => decide (v.length > 1)

/-- The main session key: (sessionCfg?.mainKey ?? "main").trim() || "main". -/
def mainKeyOf (cfg : ClawdisConfig) : String :=
  let mk := trim (((sessionCfgOf cfg).bind SessionCfg.mainKey).getD "main")
  if mk = "" then "main" else mk

/-- A last-route channel is usable only when it is not the web surface. -/
def channelToDeliverable : Channel → Option DeliveryChannel
  | Channel.whatsapp => some DeliveryChannel.whatsapp
  | Channel.telegram => some DeliveryChannel.telegram
  | Channel.discord => some DeliveryChannel.discord
  | Channel.webchat => none

/-- The channel and explicit recipient of the job payload handed to
resolveDeliveryTarget. -/
structure DeliveryArg where
  channel : Option ReqChannel := none
  toRecipient : Option String := none
deriving DecidableEq, Repr

/-- The channel part of resolveDeliveryTarget: an explicitly requested
surface wins; otherwise the main-session last route when it is not webchat;
otherwise whatsapp. -/
def resolveChannel (cfg : ClawdisConfig) (store : SessionStore) (jp : DeliveryArg) :
    DeliveryChannel :=
  let requestedChannel := jp.channel.getD ReqChannel.last
  let main := lookupStore store (mainKeyOf cfg)
  let lastChannel := (main.bind SessionEntry.lastChannel).bind channelToDeliverable
  match requestedChannel with
  | ReqChannel.whatsapp => DeliveryChannel.whatsapp
  | ReqChannel.telegram => DeliveryChannel.telegram
  | ReqChannel.discord => DeliveryChannel.discord
  | ReqChannel.last => lastChannel.getD DeliveryChannel.whatsapp

/-- The candidate recipient of resolveDeliveryTarget before allowlist
sanitization: a non-empty trimmed explicit to wins, else the trimmed
main-session last route recipient, else absent. -/
def resolveToCandidate (cfg : ClawdisConfig) (store : SessionStore) (jp : DeliveryArg) :
    Option String :=
  let explicitTo :=
    jp.toRecipient.bind fun t => if trim t = "" then none else some (trim t)
  let main := lookupStore store (mainKeyOf cfg)
  let lastTo :=
    match main.bind SessionEntry.lastTo with
    | some s => trim s
    | none => ""
  match explicitTo with
  | some t => some t
  | none => if lastTo = "" then none else some lastTo

/-- Embedding of the sanitizedWhatsappTo closure of resolveDeliveryTarget:
pass through on a non-whatsapp channel, on a wildcard allowlist or when no
allowlist entry is a valid number; otherwise keep a listed normalized
candidate and replace an absent or unlisted one by the first valid entry. -/
def sanitizedWhatsappTo (cfg : ClawdisConfig) (channel : DeliveryChannel)
    (cand : Option String) : Option String :=
  if channel ≠ DeliveryChannel.whatsapp then cand
  else if (allowFromOf cfg).contains "*" then cand
  else
    let allowFrom := normalizedAllowFrom cfg
    if allowFrom.isEmpty then cand
    else
      match cand with
      | none => allowFrom.head?
      | some t =>
          let normalized := normalizeE164 t
          if allowFrom.contains normalized then some normalized else allowFrom.head?

/-- The resolved delivery route. -/
structure DeliveryTarget where
  channel : DeliveryChannel
  toRecipient : Option String
deriving DecidableEq, Repr

/-- Embedding of resolveDeliveryTarget: resolve the channel and the
candidate recipient, then sanitize the recipient against the WhatsApp
allowlist when the channel is whatsapp. -/
def resolveDeliveryTarget (cfg : ClawdisConfig) (store : SessionStore)
    (jp : DeliveryArg) : DeliveryTarget :=
  let channel := resolveChannel cfg store jp
  let cand := resolveToCandidate cfg store jp
  { channel := channel
    toRecipient :=
      if channel = DeliveryChannel.whatsapp then sanitizedWhatsappTo cfg channel cand
      else cand }

/-- The delivery precedence exactly as the spec words it (§4.5, claim C5):
the trimmed non-empty explicit recipient wins, otherwise the last route
recipient (read as its trimmed value, absent when that is empty); a
requested concrete surface wins, otherwise the last route channel unless it
is the web surface, otherwise whatsapp. -/
def specResolveDelivery (requestedChannel : ReqChannel) (explicitTo : Option String)
    (lastRouteChannel : Option Channel) (lastRouteTo : Option String) :
    DeliveryChannel × Option String :=
  let channel :=
    match requestedChannel with
    | ReqChannel.whatsapp => DeliveryChannel.whatsapp
    | ReqChannel.telegram => DeliveryChannel.telegram
    | ReqChannel.discord => DeliveryChannel.discord
    | ReqChannel.last =>
        match lastRouteChannel with
        | some Channel.whatsapp => DeliveryChannel.whatsapp
        | some Channel.telegram => DeliveryChannel.telegram
        | some Channel.discord => DeliveryChannel.discord
        | some Channel.webchat => DeliveryChannel.whatsapp
        | none => DeliveryChannel.whatsapp
  let fallbackTo :=
    match lastRouteTo with
    | some lt => if trim lt = "" then none else some (trim lt)
    | none => none
  let recipient :=
    match explicitTo with
    | some t => if trim t = "" then fallbackTo else some (trim t)
    | none => fallbackTo
  (channel, recipient)

/-- Modelled from the spec: DEFAULT_IDLE_MINUTES is imported from
config/sessions, which is not among the provided sources; the spec (§4.4)
states the default idle window is 10080 minutes (7 days). -/
def DEFAULT_IDLE_MINUTES : Int := 10080

/-- What resolveCronSession returns: the store path configuration, the
loaded store, the entry to persist for this run, the inherited systemSent
flag and whether this is a new logical session. -/
structure CronSessionResolution where
  storePathCfg : Option String
  store : SessionStore
  sessionEntry : SessionEntry
  systemSent : Bool
  isNewSession : Bool
deriving DecidableEq, Repr

/-- Embedding of resolveCronSession: an entry is fresh when it exists and
nowMs minus its updatedAt is at most the idle window (idleMinutes, at least
1, times 60000 ms); a fresh entry keeps its sessionId and systemSent flag,
otherwise a freshly minted identifier (the crypto.randomUUID oracle) starts
a new session with systemSent false. The remaining fields are carried over
from the old entry when one exists. The idle window in milliseconds is
idleMinutes (clamped to at least 1) times 60000. -/
def idleMsOf (cfg : ClawdisConfig) : Int :=
  let idleMinutes :=
    max (((sessionCfgOf cfg).bind SessionCfg.idleMinutes).getD DEFAULT_IDLE_MINUTES) 1
  idleMinutes * 60000

def resolveCronSession (cfg : ClawdisConfig) (sessionKey : String) (nowMs : Int)
    (store : SessionStore) (freshId : String) : CronSessionResolution :=
  let sessionCfg := sessionCfgOf cfg
  let idleMs := idleMsOf cfg
  let entry := lookupStore store sessionKey
  let fresh :=
    match entry with
    | some e => decide (nowMs - e.updatedAt ≤ idleMs)
    | none => false
  let sessionId :=
    match entry with
    | some e => if fresh then e.sessionId else freshId
    | none => freshId
  let systemSent :=
    match entry with
    | some e => if fresh then (e.systemSent.getD false) else false
    | none => false
  { storePathCfg := sessionCfg.bind SessionCfg.store
    store := store
    sessionEntry :=
      { sessionId := sessionId
        updatedAt := nowMs
        systemSent := some systemSent
        thinkingLevel := entry.bind SessionEntry.thinkingLevel
        verboseLevel := entry.bind SessionEntry.verboseLevel
        model := entry.bind SessionEntry.model
        contextTokens := entry.bind SessionEntry.contextTokens
        lastChannel := entry.bind SessionEntry.lastChannel
        lastTo := entry.bind SessionEntry.lastTo
        syncing := entry.bind SessionEntry.syncing }
    systemSent := systemSent
    isNewSession := !fresh }

/-- The schedule variants of a cron job. -/
inductive Schedule where
  | at (atMs : Int)
  | every (everyMs : Int) (anchorMs : Option Int := none)
  | cron (expr : String) (tz : Option String := none)
deriving DecidableEq, Repr

/-- The payload variants of a cron job. -/
inductive CronPayload where
  | systemEvent (text : String)
  | agentTurn (message : String) (thinking : Option String := none)
      (timeoutSeconds : Option Int := none) (deliver : Option Bool := none)
      (channel : Option ReqChannel := none) (toRecipient : Option String := none)
      (bestEffortDeliver : Option Bool := none)
deriving DecidableEq, Repr

/-- Embedding of CronJob, restricted to the fields the isolated-agent runner
reads. -/
structure CronJob where
  id : String
  name : Option String := none
  enabled : Bool := true
  schedule : Schedule := Schedule.every 60000
  payload : CronPayload
deriving DecidableEq, Repr

/-- Whether the job payload requests result delivery
(payload.kind = agentTurn and payload.deliver === true). -/
def deliveryRequested : CronPayload → Bool
  | CronPayload.agentTurn _ _ _ d _ _ _ => d == some true
  | CronPayload.systemEvent _ => false

/-- Whether the job payload asks for best-effort delivery
(payload.kind = agentTurn and payload.bestEffortDeliver === true). -/
def bestEffortOf : CronPayload → Bool
  | CronPayload.agentTurn _ _ _ _ _ _ b => b == some true
  | CronPayload.systemEvent _ => false

/-- The channel and recipient arguments the runner hands to
resolveDeliveryTarget: the agentTurn fields, or the last channel and no
recipient for a systemEvent payload. -/
def deliveryArgOf : CronPayload → DeliveryArg
  | CronPayload.agentTurn _ _ _ _ ch target _ =>
      { channel := ch, toRecipient := target }
  | CronPayload.systemEvent _ => { channel := some ReqChannel.last, toRecipient := none }

/-- The raw timeout in seconds: a truthy agentTurn timeoutSeconds wins,
otherwise replyCfg.timeoutSeconds, otherwise 600. -/
def jobTimeoutRawSeconds (p : CronPayload) (replyCfg : ReplyCfg) : Int :=
  match p with
  | CronPayload.agentTurn _ _ (some ts) _ _ _ _ =>
      if ts ≠ 0 then ts else replyCfg.timeoutSeconds.getD 600
  | _ => replyCfg.timeoutSeconds.getD 600

/-- What runCommandReply resolves with: the agent reply payload list. -/
structure AgentReplyResult where
  payloads : Option (List ReplyPayload) := none
deriving DecidableEq, Repr

/-- The run status union of RunCronAgentTurnResult. -/
inductive RunStatus where
  | ok
  | error
  | skipped
deriving DecidableEq, Repr

/-- Embedding of RunCronAgentTurnResult. -/
structure RunCronAgentTurnResult where
  status : RunStatus
  summary : Option String := none
  error : Option String := none
deriving DecidableEq, Repr

/-- The outward effects of one isolated-agent run, in execution order: a
whole-store save, the agent command invocation, and the individual send
calls to a messaging surface. -/
inductive RunEvent where
  | saveStore (storePathCfg : Option String) (store : SessionStore)
  | invokeAgent (commandBody : String) (runId : String) (sendSystemOnce : Bool)
      (isNewSession : Bool) (isFirstTurnInSession : Bool) (systemSent : Bool)
      (timeoutMs : Int) (lane : String)
  | sendWhatsApp (target : String) (text : String) (mediaUrl : Option String)
  | sendTelegram (chatId : String) (text : String) (mediaUrl : Option String)
  | sendDiscord (target : String) (text : String) (mediaUrl : Option String)
deriving DecidableEq, Repr

/-- Whether an event is a send call to a messaging surface. -/
def isSendEvent : RunEvent → Bool
  | RunEvent.sendWhatsApp _ _ _ => true
  | RunEvent.sendTelegram _ _ _ => true
  | RunEvent.sendDiscord _ _ _ => true
  | _ => false

/-- Whether an event is the agent command invocation. -/
def isAgentInvocation : RunEvent → Bool
  | RunEvent.invokeAgent _ _ _ _ _ _ _ _ => true
  | _ => false

/-- The media list of one payload: mediaUrls when present, else the single
truthy mediaUrl, else nothing. -/
def mediaListOf (p : ReplyPayload) : List String :=
  match p.mediaUrls with
  | some l => l
  | none =>
      match p.mediaUrl with
      | some u => if u = "" then [] else [u]
      | none => []

/-- The WhatsApp send calls for the payload list: per payload one send of
its text with the first media, then one empty-text send per extra media. -/
def whatsappSendCalls (target : String) (payloads : List ReplyPayload) : List RunEvent :=
  payloads.flatMap fun p =>
    let mediaList := mediaListOf p
    RunEvent.sendWhatsApp target (p.text.getD "") mediaList.head? ::
      (mediaList.drop 1).map fun u => RunEvent.sendWhatsApp target "" (some u)

/-- The Telegram send calls: without media one call per 4000-character
chunk of the text, with media one call per url carrying the text as the
caption of the first. -/
def telegramSendCalls (chunk : String → Nat → List String) (chatId : String)
    (payloads : List ReplyPayload) : List RunEvent :=
  payloads.flatMap fun p =>
    match mediaListOf p with
    | [] => (chunk (p.text.getD "") 4000).map fun c => RunEvent.sendTelegram chatId c none
    | u :: rest =>
        RunEvent.sendTelegram chatId (p.text.getD "") (some u) ::
          rest.map fun v => RunEvent.sendTelegram chatId "" (some v)

/-- The Discord send calls: without media one call with the text, with
media one call per url carrying the text as the caption of the first. -/
def discordSendCalls (target : String) (payloads : List ReplyPayload) : List RunEvent :=
  payloads.flatMap fun p =>
    match mediaListOf p with
    | [] => [RunEvent.sendDiscord target (p.text.getD "") none]
    | u :: rest =>
        RunEvent.sendDiscord target (p.text.getD "") (some u) ::
          rest.map fun v => RunEvent.sendDiscord target "" (some v)

/-- The send calls of the delivery phase for a resolved channel and
recipient; the WhatsApp recipient is normalized to E.164 first. -/
def sendCallsFor (chunk : String → Nat → List String) (channel : DeliveryChannel)
    (recipient : String) (payloads : List ReplyPayload) : List RunEvent :=
  match channel with
  | DeliveryChannel.whatsapp => whatsappSendCalls (normalizeE164 recipient) payloads
  | DeliveryChannel.telegram => telegramSendCalls chunk recipient payloads
  | DeliveryChannel.discord => discordSendCalls recipient payloads

/-- Execute send calls in order against the send oracle (argument k is the
number of calls already made): each call is recorded, and the first one the
oracle fails aborts the rest with its error. -/
def runSends (oracle : Nat → Option String) (k : Nat) :
    List RunEvent → List RunEvent × Option String
  | [] => ([], none)
  | c :: rest =>
      match oracle k with
      | some e => ([c], some e)
      | none =>
          let (evs, err) := runSends oracle (k + 1) rest
          (c :: evs, err)

/-- The summary of the skipped result when no recipient resolves, per
channel. -/
def skipNoticeFor : DeliveryChannel → String
  | DeliveryChannel.whatsapp => "Delivery skipped (no WhatsApp recipient)."
  | DeliveryChannel.telegram => "Delivery skipped (no Telegram chatId)."
  | DeliveryChannel.discord => "Delivery skipped (no Discord destination)."

/-- The error of the failed result when no recipient resolves, per
channel. -/
def missingRecipientErrorFor : DeliveryChannel → String
  | DeliveryChannel.whatsapp => "Cron delivery to WhatsApp requires a recipient."
  | DeliveryChannel.telegram => "Cron delivery to Telegram requires a chatId."
  | DeliveryChannel.discord =>
      "Cron delivery to Discord requires --channel discord and --to <channelId|user:ID>"

/-- The oracles standing for the runner collaborators: the clock, the
random session identifier, the templating engine, the agent invocation
outcome, the per-call send outcomes and the text chunker. -/
structure RunOracles where
  nowMs : Int
  freshSessionId : String
  renderTemplate : String → String → String
  agentOutcome : Except String AgentReplyResult
  sendOutcome : Nat → Option String
  chunkText : String → Nat → List String

/-- replyCfg.session?.sendSystemOnce === true. -/
def sendSystemOnceOf (replyCfg : ReplyCfg) : Bool :=
  (replyCfg.session.bind SessionCfg.sendSystemOnce) == some true

/-- Whether this run is the first turn of its session: the session is new
or its systemSent flag is not yet set. -/
def isFirstTurnOf (cfg : ClawdisConfig) (sessionKey : String) (store : SessionStore)
    (o : RunOracles) : Bool :=
  let cs := resolveCronSession cfg sessionKey o.nowMs store o.freshSessionId
  cs.isNewSession || !cs.systemSent

/-- Embedding of assertCommandReplyConfig: the inbound reply configuration
must exist, be in command mode and carry a non-empty command. -/
def assertCommandReplyConfig (cfg : ClawdisConfig) : Except String ReplyCfg :=
  match cfg.inbound.bind InboundCfg.reply with
  | some r =>
      if r.mode = "command" ∧ r.command ≠ none ∧ r.command ≠ some [] then Except.ok r
      else Except.error
        "Configure inbound.reply.mode=command with reply.command before using cron agent jobs."
  | none =>
      Except.error
        "Configure inbound.reply.mode=command with reply.command before using cron agent jobs."

/-- The delivery phase of the runner for a resolved target: with no
recipient, a non-best-effort run fails asking for a recipient and a
best-effort run is skipped with a fixed notice, with no send call made;
with a recipient the send calls run in order, and a throwing send makes
the run fail (best effort: stay ok) while keeping the extracted summary.
Returns the early result, when one applies, and the send events. -/
def deliverPhase (o : RunOracles) (bestEffort : Bool) (summary : Option String)
    (resolved : DeliveryTarget) (payloads : List ReplyPayload) :
    Option RunCronAgentTurnResult × List RunEvent :=
  match resolved.toRecipient with
  | none =>
      (some (if bestEffort then
          { status := RunStatus.skipped, summary := some (skipNoticeFor resolved.channel) }
        else
          { status := RunStatus.error, summary := summary,
            error := some (missingRecipientErrorFor resolved.channel) }), [])
  | some recipient =>
      match runSends o.sendOutcome 0 (sendCallsFor o.chunkText resolved.channel recipient payloads) with
      | (evs, some e) =>
          (some (if bestEffort then { status := RunStatus.ok, summary := summary }
            else { status := RunStatus.error, summary := summary, error := some e }), evs)
      | (evs, none) => (none, evs)

/-- The runner body once the reply configuration is asserted: resolve the
session, persist it (with systemSent already set to true when the
send-system-once policy applies to this first turn) before invoking the
agent, then extract the summary and run the delivery phase when the payload
requests delivery. -/
def runWithReply (cfg : ClawdisConfig) (replyCfg : ReplyCfg) (job : CronJob)
    (message : String) (sessionKey : String) (lane : Option String)
    (store : SessionStore) (o : RunOracles) :
    RunCronAgentTurnResult × List RunEvent :=
  let cs := resolveCronSession cfg sessionKey o.nowMs store o.freshSessionId
  let sendSystemOnce := sendSystemOnceOf replyCfg
  let isFirstTurnInSession := isFirstTurnOf cfg sessionKey store o
  let sessionIntro :=
    match replyCfg.session.bind SessionCfg.sessionIntro with
    | some tpl => if tpl = "" then "" else o.renderTemplate tpl cs.sessionEntry.sessionId
    | none => ""
  let bodyPre :=
    match ReplyCfg.bodyPrefixTpl replyCfg with
    | some tpl => if tpl = "" then "" else o.renderTemplate tpl cs.sessionEntry.sessionId
    | none => ""
  let timeoutSeconds := max (jobTimeoutRawSeconds job.payload replyCfg) 1
  let timeoutMs := timeoutSeconds * 1000
  let resolvedDelivery := resolveDeliveryTarget cfg store (deliveryArgOf job.payload)
  let nameInsert :=
    match job.name with
    | some n => if n = "" then "" else " " ++ n
    | none => ""
  let base := trim ("[cron:" ++ job.id ++ nameInsert ++ "] " ++ message)
  let withBodyPre :=
    if !sendSystemOnce || isFirstTurnInSession then
      if bodyPre = "" then base else bodyPre ++ base
    else base
  let commandBody :=
    if sessionIntro = "" then withBodyPre else sessionIntro ++ "\n\n" ++ withBodyPre
  let entry :=
    if sendSystemOnce && isFirstTurnInSession then
      { cs.sessionEntry with systemSent := some true }
    else cs.sessionEntry
  let newStore := setStore cs.store sessionKey entry
  let laneName :=
    match lane with
    | some l => if trim l = "" then "cron" else trim l
    | none => "cron"
  let saveEv := RunEvent.saveStore cs.storePathCfg newStore
  let invokeEv := RunEvent.invokeAgent commandBody cs.sessionEntry.sessionId sendSystemOnce
    cs.isNewSession isFirstTurnInSession (entry.systemSent.getD false) timeoutMs laneName
  match o.agentOutcome with
  | Except.error err =>
      ({ status := RunStatus.error, error := some err }, [saveEv, invokeEv])
  | Except.ok out =>
      let payloads := out.payloads.getD []
      let summary := summaryOfPayloads payloads
      if deliveryRequested job.payload then
        match deliverPhase o (bestEffortOf job.payload) summary resolvedDelivery payloads with
        | (some res, sendEvs) => (res, saveEv :: invokeEv :: sendEvs)
        | (none, sendEvs) =>
            ({ status := RunStatus.ok, summary := summary }, saveEv :: invokeEv :: sendEvs)
      else ({ status := RunStatus.ok, summary := summary }, [saveEv, invokeEv])

/-- Embedding of runCronIsolatedAgentTurn: assert the reply configuration,
then run the body; a rejected configuration is the thrown error. -/
def runCronIsolatedAgentTurn (cfg : ClawdisConfig) (job : CronJob) (message : String)
    (sessionKey : String) (lane : Option String) (store : SessionStore) (o : RunOracles) :
    Except String (RunCronAgentTurnResult × List RunEvent) :=
  match assertCommandReplyConfig cfg with
  | Except.error e => Except.error e
  | Except.ok replyCfg =>
      Except.ok (runWithReply cfg replyCfg job message sessionKey lane store o)

/-- The session target selector of the macOS cron job editor. -/
inductive SessionTargetSel where
  | main
  | isolated
deriving DecidableEq, Repr

/-- The payload kind selector of the editor. -/
inductive PayloadKindSel where
  | systemEvent
  | agentTurn
deriving DecidableEq, Repr

/-- The schedule kind selector of the editor. -/
inductive ScheduleKindSel where
  | at
  | every
  | cron
deriving DecidableEq, Repr

/-- The wake mode selector of the editor. -/
inductive WakeModeSel where
  | nextHeartbeat
  | now
deriving DecidableEq, Repr

/-- The rawValue strings of the selectors, as serialized by the editor. -/
def SessionTargetSel.rawValue : SessionTargetSel → String
  | SessionTargetSel.main => "main"
  | SessionTargetSel.isolated => "isolated"

/-- The rawValue strings of the wake modes. -/
def WakeModeSel.rawValue : WakeModeSel → String
  | WakeModeSel.nextHeartbeat => "next-heartbeat"
  | WakeModeSel.now => "now"

/-- The form state of CronJobEditor that buildPayload reads; the atDate is
carried directly as epoch milliseconds. -/
structure CronJobEditorState where
  name : String := ""
  enabled : Bool := true
  scheduleKind : ScheduleKindSel := ScheduleKindSel.at
  atDateMs : Int := 0
  everyText : String := ""
  cronExpr : String := ""
  cronTz : String := ""
  sessionTarget : SessionTargetSel := SessionTargetSel.isolated
  payloadKind : PayloadKindSel := PayloadKindSel.agentTurn
  systemEventText : String := ""
  agentMessage : String := ""
  thinking : String := ""
  timeoutSecondsText : String := ""
  deliver : Bool := false
  channel : String := "last"
  toField : String := ""
  bestEffortDeliver : Bool := false
  postToMainLabel : String := "Cron"
  wakeMode : WakeModeSel := WakeModeSel.now
deriving DecidableEq, Repr

/-- The numeric value of a digit run. -/
def digitsVal (l : List Char) : Nat :=
  l.foldl (fun a c => a * 10 + (c.toNat - 48)) 0

/-- Embedding of CronJobEditor.parseDurationMs: a trimmed string matching
digits, an optional dot and digits, and a unit among ms, s, m, h, d (case
insensitive) yields the floor of the value times the unit factor in
milliseconds; a zero value or anything else is rejected. The decimal value
is computed exactly rather than through a binary double. -/
def parseDurationMs (input : String) : Option Nat :=
  let raw := trim input
  if raw = "" then none
  else
    let cs := raw.data
    let intDigits := cs.takeWhile Char.isDigit
    let afterInt := cs.drop intDigits.length
    if intDigits = [] then none
    else
      let fracParse : Option (List Char × List Char) :=
        match afterInt with
        | '.' :: t =>
            let f := t.takeWhile Char.isDigit
            if f = [] then none else some (f, t.drop f.length)
        | _ => some ([], afterInt)
      match fracParse with
      | none => none
      | some (fracDigits, unitChars) =>
          let unit := String.mk (unitChars.map Char.toLower)
          let factor : Option Nat :=
            if unit = "ms" then some 1
            else if unit = "s" then some 1000
            else if unit = "m" then some 60000
            else if unit = "h" then some 3600000
            else if unit = "d" then some 86400000
            else none
          match factor with
          | none => none
          | some f =>
              let scale := 10 ^ fracDigits.length
              let v := digitsVal intDigits * scale + digitsVal fracDigits
              if v = 0 then none else some (v * f / scale)

/-- The schedule dictionary buildPayload serializes. -/
inductive ScheduleDict where
  | at (atMs : Int)
  | every (everyMs : Nat)
  | cron (expr : String) (tz : Option String)
deriving DecidableEq, Repr

/-- The payload dictionary buildPayload serializes. -/
inductive PayloadDict where
  | systemEvent (text : String)
  | agentTurn (message : String) (thinking : Option String)
      (timeoutSeconds : Option Int) (deliver : Bool) (channel : Option String)
      (toValue : Option String) (bestEffortDeliver : Option Bool)
deriving DecidableEq, Repr

/-- Whether a serialized payload is the agentTurn variant. -/
def isAgentTurnDict : PayloadDict → Bool
  | PayloadDict.agentTurn _ _ _ _ _ _ _ => true
  | PayloadDict.systemEvent _ => false

/-- Whether a serialized payload is the systemEvent variant. -/
def isSystemEventDict : PayloadDict → Bool
  | PayloadDict.systemEvent _ => true
  | PayloadDict.agentTurn _ _ _ _ _ _ _ => false

/-- The job record buildPayload returns on success. -/
structure CronJobRoot where
  enabled : Bool
  schedule : ScheduleDict
  sessionTarget : String
  wakeMode : String
  payload : PayloadDict
  name : Option String
  isolation : Option String
deriving DecidableEq, Repr

/-- Embedding of CronJobEditor.buildAgentTurnPayload: trim the message and
the optional fields, keep a positive parsed timeout, and carry the delivery
fields only when delivery is on. -/
def buildAgentTurnPayload (e : CronJobEditorState) : PayloadDict :=
  let msg := trim e.agentMessage
  let thinkingTrim := trim e.thinking
  let thinkingOpt := if thinkingTrim = "" then none else some thinkingTrim
  let timeoutOpt :=
    match e.timeoutSecondsText.toInt? with
    | some n => if n > 0 then some n else none
    | none => none
  if e.deliver then
    let toTrim := trim e.toField
    PayloadDict.agentTurn msg thinkingOpt timeoutOpt e.deliver (some e.channel)
      (if toTrim = "" then none else some toTrim) (some e.bestEffortDeliver)
  else
    PayloadDict.agentTurn msg thinkingOpt timeoutOpt e.deliver none none none

/-- The schedule part of buildPayload: an at instant, a parsed every
duration, or a non-empty cron expression with its optional timezone. -/
def buildSchedule (e : CronJobEditorState) : Except String ScheduleDict :=
  match e.scheduleKind with
  | ScheduleKindSel.at => Except.ok (ScheduleDict.at e.atDateMs)
  | ScheduleKindSel.every =>
      match parseDurationMs e.everyText with
      | some ms => Except.ok (ScheduleDict.every ms)
      | none => Except.error "Invalid every duration (use 10m, 1h, 1d)."
  | ScheduleKindSel.cron =>
      let expr := trim e.cronExpr
      if expr = "" then Except.error "Cron expression is required."
      else
        let tz := trim e.cronTz
        Except.ok (ScheduleDict.cron expr (if tz = "" then none else some tz))

/-- The payload dictionary buildPayload serializes before validation: an
isolated target always builds the agentTurn variant, a main target follows
the payload kind selector. -/
def editorPayloadDict (e : CronJobEditorState) : PayloadDict :=
  if e.sessionTarget = SessionTargetSel.isolated then buildAgentTurnPayload e
  else
    match e.payloadKind with
    | PayloadKindSel.systemEvent => PayloadDict.systemEvent (trim e.systemEventText)
    | PayloadKindSel.agentTurn => buildAgentTurnPayload e

/-- Embedding of CronJobEditor.buildPayload, continued: build the schedule,
take the payload from editorPayloadDict, run the validation checks and
assemble the job record. -/
def buildPayload (e : CronJobEditorState) : Except String CronJobRoot :=
  let nameTrim := trim e.name
  match buildSchedule e with
  | Except.error m => Except.error m
  | Except.ok schedule =>
      let payload := editorPayloadDict e
      if e.sessionTarget = SessionTargetSel.main ∧ isAgentTurnDict payload = true then
        Except.error
          "Main session jobs require systemEvent payloads (switch Session target to isolated)."
      else if e.sessionTarget = SessionTargetSel.isolated ∧ isSystemEventDict payload = true then
        Except.error "Isolated jobs require agentTurn payloads."
      else
        match payload with
        | PayloadDict.systemEvent text =>
            if text = "" then Except.error "System event text is required."
            else Except.ok
              { enabled := e.enabled, schedule := schedule,
                sessionTarget := e.sessionTarget.rawValue,
                wakeMode := e.wakeMode.rawValue,
                payload := PayloadDict.systemEvent text,
                name := if nameTrim = "" then none else some nameTrim,
                isolation :=
                  if e.sessionTarget = SessionTargetSel.isolated then
                    some (if trim e.postToMainLabel = "" then "Cron" else trim e.postToMainLabel)
                  else none }
        | PayloadDict.agentTurn msg th ts d ch tv be =>
            if msg = "" then Except.error "Agent message is required."
            else Except.ok
              { enabled := e.enabled, schedule := schedule,
                sessionTarget := e.sessionTarget.rawValue,
                wakeMode := e.wakeMode.rawValue,
                payload := PayloadDict.agentTurn msg th ts d ch tv be,
                name := if nameTrim = "" then none else some nameTrim,
                isolation :=
                  if e.sessionTarget = SessionTargetSel.isolated then
                    some (if trim e.postToMainLabel = "" then "Cron" else trim e.postToMainLabel)
                  else none }

/-- A minimal command-mode reply configuration, as the tests build it. -/
def replyCfgBasic : ReplyCfg :=
  { mode := "command", command := some ["echo", "ok"] }

/-- A reply configuration with the send-system-once policy enabled. -/
def replyCfgOnce : ReplyCfg :=
  { mode := "command", command := some ["echo", "ok"],
    session := some { mainKey := some "main", sendSystemOnce := some true } }

/-- A configuration with no allowlist. -/
def cfgBasic : ClawdisConfig :=
  { inbound := some { reply := some replyCfgBasic } }

/-- A configuration with the send-system-once policy enabled. -/
def cfgOnce : ClawdisConfig :=
  { inbound := some { reply := some replyCfgOnce } }

/-- A configuration whose allowlist holds one valid number and one entry
with no digits. -/
def cfgAllow : ClawdisConfig :=
  { inbound :=
      some { reply := some replyCfgBasic, allowFrom := some ["(555) 000-1111", "junk"] } }

/-- A configuration whose allowlist holds exactly one normalized number. -/
def cfgAllowOne : ClawdisConfig :=
  { inbound := some { reply := some replyCfgBasic, allowFrom := some ["+15550001111"] } }

/-- A delivery request for whatsapp with a recipient outside the allowlist. -/
def argWhatsappUnlisted : DeliveryArg :=
  { channel := some ReqChannel.whatsapp, toRecipient := some "+15551234567" }

/-- Oracles for a run whose agent turn succeeds with one text payload and
whose sends all succeed. -/
def oracleOkHello : RunOracles :=
  { nowMs := 1700000000000, freshSessionId := "fresh-session",
    renderTemplate := fun tpl _ => tpl,
    agentOutcome := Except.ok { payloads := some [{ text := some "hello" }] },
    sendOutcome := fun _ => none,
    chunkText := fun s _ => [s] }

/-- Oracles for a run whose agent turn succeeds but whose every send call
throws. -/
def oracleSendFail : RunOracles :=
  { nowMs := 1700000000000, freshSessionId := "fresh-session",
    renderTemplate := fun tpl _ => tpl,
    agentOutcome := Except.ok { payloads := some [{ text := some "hello" }] },
    sendOutcome := fun _ => some "Error: socket closed",
    chunkText := fun s _ => [s] }

/-- A job that requests whatsapp delivery without best effort. -/
def jobDeliverStrict : CronJob :=
  { id := "job-1",
    payload := CronPayload.agentTurn "do it" none none (some true)
      (some ReqChannel.whatsapp) none (some false) }

/-- A job that requests whatsapp delivery with best effort. -/
def jobDeliverBestEffort : CronJob :=
  { id := "job-1",
    payload := CronPayload.agentTurn "do it" none none (some true)
      (some ReqChannel.whatsapp) none (some true) }

/-- A job that requests whatsapp delivery to an allowlisted recipient. -/
def jobDeliverListed : CronJob :=
  { id := "job-1",
    payload := CronPayload.agentTurn "do it" none none (some true)
      (some ReqChannel.whatsapp) (some "+1 555 000 1111") (some false) }

/-- A job that requests no delivery. -/
def jobNoDeliver : CronJob :=
  { id := "job-1",
    payload := CronPayload.agentTurn "do it" none none (some false) none none none }

/-- An editor state selecting the isolated target together with the
systemEvent payload kind, with both a system event text and a non-empty
agent message filled in. -/
def editorIsolatedSystemEvent : CronJobEditorState :=
  { sessionTarget := SessionTargetSel.isolated, payloadKind := PayloadKindSel.systemEvent,
    agentMessage := "check the mail", systemEventText := "tick",
    scheduleKind := ScheduleKindSel.at, atDateMs := 1700000000000 }

/-- The job record buildPayload actually returns for
editorIsolatedSystemEvent: an agentTurn payload, not a rejection. -/
def rootIsolatedCoerced : CronJobRoot :=
  { enabled := true, schedule := ScheduleDict.at 1700000000000,
    sessionTarget := "isolated", wakeMode := "now",
    payload := PayloadDict.agentTurn "check the mail" none none false none none none,
    name := none, isolation := some "Cron" }

/-- A 2001-character text of the letter a. -/
def longAText : String := String.mk (List.replicate 2001 'a')

theorem lookupStore_setStore_self (s : SessionStore) (k : String) (e : SessionEntry) :
    lookupStore (setStore s k e) k = some e := by
  induction s with
  | nil => simp [setStore, lookupStore]
  | cons h t ih =>
      obtain ⟨k0, e0⟩ := h
      by_cases hk : k0 = k
      · simp [setStore, hk, lookupStore]
      · simp [setStore, hk, lookupStore, ih]

theorem pickSummaryFromOutput_eq_none_iff (t : Option String) :
    pickSummaryFromOutput t = none ↔ trim (t.getD "") = "" := by
  unfold pickSummaryFromOutput
  by_cases h : trim (t.getD "") = "" <;> simp [h]
  split <;> simp

theorem findSome?_append_of_forall_none {α β : Type} (f : α → Option β)
    (l1 l2 : List α) (h : ∀ x ∈ l1, f x = none) :
    List.findSome? f (l1 ++ l2) = List.findSome? f l2 := by
  induction l1 with
  | nil => simp
  | cons a t ih =>
      rw [List.cons_append, List.findSome?_cons, h a (by simp)]
      exact ih (fun x hx => h x (by simp [hx]))

/-- Claim C6 (amended): pickSummaryFromPayloads scans from the last payload
to the first and returns pickSummaryFromOutput of the first payload in that
scan order whose trimmed text is non-empty (its trimmed text, truncated with
an ellipsis when longer than 2000 characters); when every text trims to
empty the summary is absent rather than an error; for the payloads "first",
" " and " last " it is exactly "last". -/
theorem pickSummaryFromPayloads_scan (payloads : List ReplyPayload) :
    ((∀ p ∈ payloads, trim ((ReplyPayload.text p).getD "") = "") →
      pickSummaryFromPayloads payloads = none)
    ∧ (∀ pre p post, payloads = pre ++ p :: post →
        trim ((ReplyPayload.text p).getD "") ≠ "" →
        (∀ q ∈ post, trim ((ReplyPayload.text q).getD "") = "") →
        pickSummaryFromPayloads payloads = pickSummaryFromOutput (ReplyPayload.text p))
    ∧ pickSummaryFromPayloads
        [{ text := some "first" }, { text := some " " }, { text := some " last " }] =
        some "last" := by
  refine ⟨?_, ?_, by decide⟩
  · intro h
    unfold pickSummaryFromPayloads
    rw [List.findSome?_eq_none_iff]
    intro p hp
    exact (pickSummaryFromOutput_eq_none_iff _).mpr (h p (List.mem_reverse.mp hp))
  · intro pre p post hsplit hp hpost
    subst hsplit
    unfold pickSummaryFromPayloads
    rw [List.reverse_append, List.reverse_cons, List.append_assoc]
    rw [findSome?_append_of_forall_none _ _ _
      (fun q hq => (pickSummaryFromOutput_eq_none_iff _).mpr (hpost q (List.mem_reverse.mp hq)))]
    obtain ⟨s, hs⟩ : ∃ s, pickSummaryFromOutput (ReplyPayload.text p) = some s := by
      cases hc : pickSummaryFromOutput (ReplyPayload.text p) with
      | none => exact absurd ((pickSummaryFromOutput_eq_none_iff _).mp hc) hp
      | some s => exact ⟨s, rfl⟩
    rw [List.singleton_append, List.findSome?_cons, hs]

/-- Claim C6 (counterexample): for a single payload of 2001 letters the
summary is the truncated text with an ellipsis, not the trimmed text of the
payload, so the general clause returning the trimmed text fails as
stated. -/
theorem pickSummaryFromPayloads_not_trimmed_text :
    pickSummaryFromPayloads [{ text := some longAText }] =
      some (String.mk (List.replicate 2000 'a') ++ "…") ∧
    trim longAText = longAText ∧
    pickSummaryFromPayloads [{ text := some longAText }] ≠ some (trim longAText) := by
  have hdrop : ∀ n : Nat, List.dropWhile isTrimmableWhitespace (List.replicate n 'a') =
      List.replicate n 'a' := by
    intro n
    cases n with
    | zero => rfl
    | succ m =>
        rw [List.replicate_succ, List.dropWhile_cons]
        rw [show isTrimmableWhitespace 'a' = false from by decide]
        simp
  have htrim : trim longAText = longAText := by
    show String.mk _ = _
    rw [longAText]
    rw [show (String.mk (List.replicate 2001 'a')).data = List.replicate 2001 'a' from rfl]
    rw [hdrop, List.reverse_replicate, hdrop, List.reverse_replicate]
  have hlen : (trim longAText).length = 2001 := by
    rw [htrim]
    show (List.replicate 2001 'a').length = 2001
    rw [List.length_replicate]
  have hne : trim longAText ≠ "" := by
    intro hh
    rw [hh] at hlen
    exact absurd hlen (by decide)
  have hout : pickSummaryFromOutput (some longAText) =
      some (String.mk (List.replicate 2000 'a') ++ "…") := by
    simp only [pickSummaryFromOutput, Option.getD_some]
    rw [if_neg hne, if_pos (by rw [hlen]; norm_num)]
    rw [htrim]
    rw [show longAText.data = List.replicate 2001 'a' from rfl]
    rw [List.take_replicate]
    norm_num
  have hpick : pickSummaryFromPayloads [{ text := some longAText }] =
      some (String.mk (List.replicate 2000 'a') ++ "…") := by
    unfold pickSummaryFromPayloads
    simp only [List.reverse_singleton, List.findSome?_cons]
    rw [hout]
  refine ⟨hpick, htrim, ?_⟩
  rw [hpick, htrim]
  intro hcontra
  have hd : (String.mk (List.replicate 2000 'a') ++ "…").data = longAText.data := by
    have := Option.some.inj hcontra
    rw [this]
  rw [String.data_append, longAText] at hd
  have hd2 : List.replicate 2000 'a' ++ ['…'] = List.replicate 2001 'a' := hd
  have e : List.replicate 2001 'a' = List.replicate 2000 'a' ++ ['a'] := by
    have e0 := List.replicate_succ' (n := 2000) (a := 'a')
    norm_num at e0
    exact e0
  rw [e] at hd2
  have h2 := List.append_cancel_left hd2
  simp at h2

/-- Claim C7: a text whose trimmed form is longer than 2000 characters is
summarized as its first 2000 characters followed by one ellipsis character
(total length 2001); a non-empty trimmed text of at most 2000 characters is
returned unchanged. -/
theorem pickSummaryFromOutput_truncation (text : String) :
    ((trim text).length > 2000 →
      pickSummaryFromOutput (some text) =
        some (String.mk ((trim text).data.take 2000) ++ "…") ∧
      ∀ s, pickSummaryFromOutput (some text) = some s → s.length = 2000 + "…".length)
    ∧ ((trim text).length ≤ 2000 → trim text ≠ "" →
        pickSummaryFromOutput (some text) = some (trim text)) := by
  constructor
  · intro hlen
    have hne : trim text ≠ "" := by
      intro h0
      rw [h0] at hlen
      simp [String.length] at hlen
    have heq : pickSummaryFromOutput (some text) =
        some (String.mk ((trim text).data.take 2000) ++ "…") := by
      unfold pickSummaryFromOutput
      simp only [Option.getD_some]
      rw [if_neg hne, if_pos hlen]
    refine ⟨heq, ?_⟩
    intro s hs
    rw [heq] at hs
    have hs2 := Option.some.inj hs
    rw [← hs2]
    have h1 : (String.mk ((trim text).data.take 2000) ++ "…").data.length =
        2000 + "…".length := by
      rw [String.data_append]
      rw [List.length_append]
      have h3 : (String.mk ((trim text).data.take 2000)).data = (trim text).data.take 2000 := rfl
      rw [h3, List.length_take]
      have h4 : (trim text).data.length = (trim text).length := rfl
      have h5 : ("…".length : Nat) = "…".data.length := rfl
      omega
    exact h1
  · intro hle hne
    unfold pickSummaryFromOutput
    simp only [Option.getD_some]
    rw [if_neg hne, if_neg (by omega)]

/-- Claim C2: a stored session entry is fresh exactly when it exists and
nowMs minus its updatedAt is at most the idle window (idleMinutes, clamped
to at least 1, times 60000 ms); fresh entries keep their sessionId and
systemSent flag, stale or absent ones yield the freshly minted identifier
with systemSent false; one millisecond inside the window the sessionId is
reused and one millisecond past it a new one is minted. -/
theorem resolveCronSession_freshness (cfg : ClawdisConfig) (sessionKey : String)
    (nowMs : Int) (store : SessionStore) (freshId : String) :
    ((resolveCronSession cfg sessionKey nowMs store freshId).isNewSession = false ↔
      ∃ e, lookupStore store sessionKey = some e ∧ nowMs - e.updatedAt ≤ idleMsOf cfg)
    ∧ (∀ e, lookupStore store sessionKey = some e →
        (nowMs - e.updatedAt ≤ idleMsOf cfg →
          (resolveCronSession cfg sessionKey nowMs store freshId).sessionEntry.sessionId =
            e.sessionId ∧
          (resolveCronSession cfg sessionKey nowMs store freshId).systemSent =
            e.systemSent.getD false)
        ∧ (idleMsOf cfg < nowMs - e.updatedAt →
          (resolveCronSession cfg sessionKey nowMs store freshId).sessionEntry.sessionId =
            freshId ∧
          (resolveCronSession cfg sessionKey nowMs store freshId).systemSent = false ∧
          (resolveCronSession cfg sessionKey nowMs store freshId).isNewSession = true)
        ∧ (nowMs - e.updatedAt = idleMsOf cfg - 1 →
          (resolveCronSession cfg sessionKey nowMs store freshId).sessionEntry.sessionId =
            e.sessionId ∧
          (resolveCronSession cfg sessionKey nowMs store freshId).isNewSession = false)
        ∧ (nowMs - e.updatedAt = idleMsOf cfg + 1 →
          (resolveCronSession cfg sessionKey nowMs store freshId).sessionEntry.sessionId =
            freshId ∧
          (resolveCronSession cfg sessionKey nowMs store freshId).isNewSession = true))
    ∧ (lookupStore store sessionKey = none →
        (resolveCronSession cfg sessionKey nowMs store freshId).sessionEntry.sessionId =
          freshId ∧
        (resolveCronSession cfg sessionKey nowMs store freshId).systemSent = false ∧
        (resolveCronSession cfg sessionKey nowMs store freshId).isNewSession = true) := by
  refine ⟨?_, ?_, ?_⟩
  · unfold resolveCronSession
    cases hlk : lookupStore store sessionKey with
    | none => simp [hlk]
    | some e =>
        by_cases hle : nowMs - e.updatedAt ≤ idleMsOf cfg <;> simp [hlk, hle] <;> omega
  · intro e hlk
    refine ⟨?_, ?_, ?_, ?_⟩
    · intro hle
      unfold resolveCronSession
      simp [hlk, hle]
    · intro hlt
      unfold resolveCronSession
      simp [hlk, show ¬(nowMs - e.updatedAt ≤ idleMsOf cfg) from by omega]
    · intro hbound
      unfold resolveCronSession
      simp [hlk, show nowMs - e.updatedAt ≤ idleMsOf cfg from by omega]
    · intro hbound
      unfold resolveCronSession
      simp [hlk, show ¬(nowMs - e.updatedAt ≤ idleMsOf cfg) from by omega]
  · intro hlk
    unfold resolveCronSession
    simp [hlk]

/-- Claim C5: resolveDeliveryTarget follows the spec precedence: the
trimmed non-empty explicit recipient wins over the last route recipient,
and a requested concrete surface wins over the last route channel (unless
that is the web surface) with whatsapp as the default; the returned
recipient is the candidate, sanitized against the allowlist exactly when
the resolved channel is whatsapp. -/
theorem resolveDeliveryTarget_precedence (cfg : ClawdisConfig) (store : SessionStore)
    (jp : DeliveryArg) :
    (resolveDeliveryTarget cfg store jp).channel =
      (specResolveDelivery (jp.channel.getD ReqChannel.last) jp.toRecipient
        ((lookupStore store (mainKeyOf cfg)).bind SessionEntry.lastChannel)
        ((lookupStore store (mainKeyOf cfg)).bind SessionEntry.lastTo)).1
    ∧ resolveToCandidate cfg store jp =
      (specResolveDelivery (jp.channel.getD ReqChannel.last) jp.toRecipient
        ((lookupStore store (mainKeyOf cfg)).bind SessionEntry.lastChannel)
        ((lookupStore store (mainKeyOf cfg)).bind SessionEntry.lastTo)).2
    ∧ (resolveDeliveryTarget cfg store jp).toRecipient =
      (if (resolveDeliveryTarget cfg store jp).channel = DeliveryChannel.whatsapp
       then sanitizedWhatsappTo cfg (resolveDeliveryTarget cfg store jp).channel
         (resolveToCandidate cfg store jp)
       else resolveToCandidate cfg store jp) := by
  refine ⟨?_, ?_, ?_⟩
  · unfold resolveDeliveryTarget resolveChannel specResolveDelivery
    cases hc : jp.channel with
    | none =>
        simp only [Option.getD_none]
        cases hm : (lookupStore store (mainKeyOf cfg)).bind SessionEntry.lastChannel with
        | none => simp [hm]
        | some c => cases c <;> simp [hm, channelToDeliverable]
    | some rc =>
        cases rc with
        | last =>
            simp only [Option.getD_some]
            cases hm : (lookupStore store (mainKeyOf cfg)).bind SessionEntry.lastChannel with
            | none => simp [hm]
            | some c => cases c <;> simp [hm, channelToDeliverable]
        | whatsapp => simp
        | telegram => simp
        | discord => simp
  · unfold resolveToCandidate specResolveDelivery
    cases ht : jp.toRecipient with
    | none =>
        simp only
        cases hm : (lookupStore store (mainKeyOf cfg)).bind SessionEntry.lastTo with
        | none => simp [hm]
        | some s => by_cases hs : trim s = "" <;> simp [hm, hs]
    | some t =>
        by_cases htr : trim t = ""
        · simp only [htr]
          cases hm : (lookupStore store (mainKeyOf cfg)).bind SessionEntry.lastTo with
          | none => simp [hm, htr]
          | some s => by_cases hs : trim s = "" <;> simp [hm, hs, htr]
        · simp [htr]
  · unfold resolveDeliveryTarget
    by_cases hch : resolveChannel cfg store jp = DeliveryChannel.whatsapp <;> simp [hch]

/-- A built agentTurn payload is always the agentTurn variant. -/
theorem isAgentTurnDict_buildAgentTurnPayload (e : CronJobEditorState) :
    isAgentTurnDict (buildAgentTurnPayload e) = true := by
  unfold buildAgentTurnPayload
  by_cases hd : e.deliver <;> simp [hd, isAgentTurnDict]

/-- A built agentTurn payload is never the systemEvent variant. -/
theorem isSystemEventDict_buildAgentTurnPayload (e : CronJobEditorState) :
    isSystemEventDict (buildAgentTurnPayload e) = false := by
  unfold buildAgentTurnPayload
  by_cases hd : e.deliver <;> simp [hd, isSystemEventDict]

/-- Claim C9 (amended): buildPayload rejects a main target whose payload is
the agentTurn variant with a validation error before anything is returned;
an isolated target always builds the agentTurn variant so a systemEvent
selection under it is coerced rather than rejected; every job record
buildPayload returns satisfies the invariant (main implies systemEvent,
isolated implies agentTurn). -/
theorem editorPayloadDict_of_isolated (e : CronJobEditorState)
    (h : e.sessionTarget = SessionTargetSel.isolated) :
    editorPayloadDict e = buildAgentTurnPayload e := by
  simp [editorPayloadDict, h]

theorem editorPayloadDict_of_main_systemEvent (e : CronJobEditorState)
    (h : e.sessionTarget = SessionTargetSel.main)
    (hk : e.payloadKind = PayloadKindSel.systemEvent) :
    editorPayloadDict e = PayloadDict.systemEvent (trim e.systemEventText) := by
  simp [editorPayloadDict, h, hk]

theorem editorPayloadDict_of_main_agentTurn (e : CronJobEditorState)
    (h : e.sessionTarget = SessionTargetSel.main)
    (hk : e.payloadKind = PayloadKindSel.agentTurn) :
    editorPayloadDict e = buildAgentTurnPayload e := by
  simp [editorPayloadDict, h, hk]

theorem buildPayload_target_payload_invariant (e : CronJobEditorState) :
    (∀ r, buildPayload e = Except.ok r →
      (e.sessionTarget = SessionTargetSel.main → isSystemEventDict r.payload = true)
      ∧ (e.sessionTarget = SessionTargetSel.isolated → isAgentTurnDict r.payload = true))
    ∧ (e.sessionTarget = SessionTargetSel.main → e.payloadKind = PayloadKindSel.agentTurn →
        ∃ m, buildPayload e = Except.error m) := by
  constructor
  · intro r hr
    unfold buildPayload at hr
    cases hsch : buildSchedule e with
    | error m => rw [hsch] at hr; exact absurd hr (by simp)
    | ok sch =>
        rw [hsch] at hr
        simp only [] at hr
        cases hst : e.sessionTarget with
        | isolated =>
            refine ⟨fun hmain => absurd hmain (by decide), fun _ => ?_⟩
            rw [editorPayloadDict_of_isolated e hst] at hr
            rw [if_neg (by simp [hst])] at hr
            rw [if_neg (by simp [isSystemEventDict_buildAgentTurnPayload])] at hr
            cases hp : buildAgentTurnPayload e with
            | systemEvent text =>
                have hfalse := isSystemEventDict_buildAgentTurnPayload e
                rw [hp] at hfalse
                exact absurd hfalse (by simp [isSystemEventDict])
            | agentTurn msg th ts d ch tv be =>
                rw [hp] at hr
                simp only [] at hr
                by_cases hm : msg = ""
                · rw [if_pos hm] at hr
                  exact absurd hr (by simp)
                · rw [if_neg hm] at hr
                  have hrec := Except.ok.inj hr
                  rw [← hrec]
                  simp [isAgentTurnDict]
        | main =>
            refine ⟨fun _ => ?_, fun hiso => absurd hiso (by decide)⟩
            cases hpk : e.payloadKind with
            | agentTurn =>
                rw [editorPayloadDict_of_main_agentTurn e hst hpk] at hr
                rw [if_pos ⟨hst, isAgentTurnDict_buildAgentTurnPayload e⟩] at hr
                exact absurd hr (by simp)
            | systemEvent =>
                rw [editorPayloadDict_of_main_systemEvent e hst hpk] at hr
                rw [if_neg (by simp [isAgentTurnDict])] at hr
                rw [if_neg (by simp [hst])] at hr
                simp only [] at hr
                by_cases htx : trim e.systemEventText = ""
                · rw [if_pos htx] at hr
                  exact absurd hr (by simp)
                · rw [if_neg htx] at hr
                  have hrec := Except.ok.inj hr
                  rw [← hrec]
                  simp [isSystemEventDict]
  · intro hmain hkind
    unfold buildPayload
    cases hsch : buildSchedule e with
    | error m => exact ⟨m, rfl⟩
    | ok sch =>
        refine ⟨"Main session jobs require systemEvent payloads (switch Session target to isolated).",
          ?_⟩
        simp only []
        rw [editorPayloadDict_of_main_agentTurn e hmain hkind]
        rw [if_pos ⟨hmain, isAgentTurnDict_buildAgentTurnPayload e⟩]

/-- Claim C9 (counterexample): an editor state selecting the isolated
target together with the systemEvent payload kind is not rejected:
buildPayload succeeds and returns an agentTurn payload built from the agent
message field. -/
theorem buildPayload_isolated_systemEvent_not_rejected :
    buildPayload editorIsolatedSystemEvent = Except.ok rootIsolatedCoerced ∧
    editorIsolatedSystemEvent.sessionTarget = SessionTargetSel.isolated ∧
    editorIsolatedSystemEvent.payloadKind = PayloadKindSel.systemEvent ∧
    isAgentTurnDict rootIsolatedCoerced.payload = true := by
  exact ⟨rfl, rfl, rfl, rfl⟩

/-- Claim C1: on the whatsapp channel, with a non-wildcard allowlist holding
at least one entry that normalizes to a valid number, resolveDeliveryTarget
always returns a member of the normalized allowlist: a listed candidate is
kept (normalized) and an absent or unlisted candidate is replaced by the
first valid entry; with a wildcard allowlist or no valid entries the
candidate passes through unchanged. -/
theorem resolveDeliveryTarget_whatsapp_allowlist (cfg : ClawdisConfig)
    (store : SessionStore) (jp : DeliveryArg)
    (hch : (resolveDeliveryTarget cfg store jp).channel = DeliveryChannel.whatsapp) :
    ((allowFromOf cfg).contains "*" = false → normalizedAllowFrom cfg ≠ [] →
      ∃ t, (resolveDeliveryTarget cfg store jp).toRecipient = some t ∧
        t ∈ normalizedAllowFrom cfg ∧
        (resolveToCandidate cfg store jp = none →
          some t = (normalizedAllowFrom cfg).head?) ∧
        (∀ cand, resolveToCandidate cfg store jp = some cand →
          ((normalizedAllowFrom cfg).contains (normalizeE164 cand) = true ∧
              t = normalizeE164 cand) ∨
          ((normalizedAllowFrom cfg).contains (normalizeE164 cand) = false ∧
              some t = (normalizedAllowFrom cfg).head?)))
    ∧ ((allowFromOf cfg).contains "*" = true ∨ normalizedAllowFrom cfg = [] →
        (resolveDeliveryTarget cfg store jp).toRecipient = resolveToCandidate cfg store jp) := by
  have hch' : resolveChannel cfg store jp = DeliveryChannel.whatsapp := hch
  have hto : (resolveDeliveryTarget cfg store jp).toRecipient =
      sanitizedWhatsappTo cfg DeliveryChannel.whatsapp (resolveToCandidate cfg store jp) := by
    unfold resolveDeliveryTarget
    simp [hch']
  rw [hto]
  unfold sanitizedWhatsappTo
  simp only []
  rw [if_neg (show ¬(DeliveryChannel.whatsapp ≠ DeliveryChannel.whatsapp) from by simp)]
  constructor
  · intro hwild hne
    rw [hwild]
    rw [if_neg (by simp)]
    rw [if_neg (show ¬((normalizedAllowFrom cfg).isEmpty = true) from by
      intro hemp; exact hne (by simpa using hemp))]
    obtain ⟨h0, hh0, hh0mem⟩ :
        ∃ h0, (normalizedAllowFrom cfg).head? = some h0 ∧ h0 ∈ normalizedAllowFrom cfg := by
      cases hl : normalizedAllowFrom cfg with
      | nil => exact absurd hl hne
      | cons a l => exact ⟨a, rfl, by simp [hl]⟩
    cases hcand : resolveToCandidate cfg store jp with
    | none =>
        simp only []
        exact ⟨h0, hh0, hh0mem, fun _ => hh0.symm, fun c hc => absurd hc (by simp)⟩
    | some cand =>
        simp only []
        cases hmem : (normalizedAllowFrom cfg).contains (normalizeE164 cand) with
        | true =>
            rw [if_pos rfl]
            refine ⟨normalizeE164 cand, rfl, List.mem_of_elem_eq_true hmem, ?_, ?_⟩
            · intro hc
              exact absurd hc (by simp)
            · intro c hc
              have hcc : cand = c := Option.some.inj hc
              subst hcc
              exact Or.inl ⟨hmem, rfl⟩
        | false =>
            rw [if_neg (by simp)]
            refine ⟨h0, hh0, hh0mem, ?_, ?_⟩
            · intro hc
              exact absurd hc (by simp)
            · intro c hc
              have hcc : cand = c := Option.some.inj hc
              subst hcc
              exact Or.inr ⟨hmem, hh0.symm⟩
  · intro hw
    rcases hw with hwild | hempty
    · rw [hwild]
      rw [if_pos rfl]
    · cases hb : (allowFromOf cfg).contains "*" with
      | true => rw [if_pos rfl]
      | false =>
          rw [if_neg (by simp)]
          rw [if_pos (show (normalizedAllowFrom cfg).isEmpty = true from by rw [hempty]; rfl)]

/-- Claim C1 (witness): with the allowlist ["(555) 000-1111", "junk"] and an
unlisted explicit recipient, the resolved whatsapp recipient is a member of
the normalized allowlist. -/
theorem resolveDeliveryTarget_whatsapp_allowlist_example :
    ((allowFromOf cfgAllow).contains "*" = false → normalizedAllowFrom cfgAllow ≠ [] →
      ∃ t, (resolveDeliveryTarget cfgAllow [] argWhatsappUnlisted).toRecipient = some t ∧
        t ∈ normalizedAllowFrom cfgAllow ∧
        (resolveToCandidate cfgAllow [] argWhatsappUnlisted = none →
          some t = (normalizedAllowFrom cfgAllow).head?) ∧
        (∀ cand, resolveToCandidate cfgAllow [] argWhatsappUnlisted = some cand →
          ((normalizedAllowFrom cfgAllow).contains (normalizeE164 cand) = true ∧
              t = normalizeE164 cand) ∨
          ((normalizedAllowFrom cfgAllow).contains (normalizeE164 cand) = false ∧
              some t = (normalizedAllowFrom cfgAllow).head?)))
    ∧ ((allowFromOf cfgAllow).contains "*" = true ∨ normalizedAllowFrom cfgAllow = [] →
        (resolveDeliveryTarget cfgAllow [] argWhatsappUnlisted).toRecipient =
          resolveToCandidate cfgAllow [] argWhatsappUnlisted) :=
  resolveDeliveryTarget_whatsapp_allowlist cfgAllow [] argWhatsappUnlisted rfl

/-- Claim C3: an isolated agent-turn run that requests delivery, resolves
the whatsapp channel and no recipient returns an error mentioning the
required recipient (keeping the extracted summary) without best effort, and
the skipped status with best effort; in both cases no send call occurs. -/
theorem runCron_whatsapp_no_recipient (cfg : ClawdisConfig) (job : CronJob)
    (message sessionKey : String) (lane : Option String) (store : SessionStore)
    (o : RunOracles) (replyCfg : ReplyCfg) (out : AgentReplyResult)
    (hreply : assertCommandReplyConfig cfg = Except.ok replyCfg)
    (hagent : o.agentOutcome = Except.ok out)
    (hdeliver : deliveryRequested job.payload = true)
    (hresolved : resolveDeliveryTarget cfg store (deliveryArgOf job.payload) =
      { channel := DeliveryChannel.whatsapp, toRecipient := none }) :
    ∃ res trace,
      runCronIsolatedAgentTurn cfg job message sessionKey lane store o =
        Except.ok (res, trace) ∧
      (bestEffortOf job.payload = false →
        res.status = RunStatus.error ∧
        res.error = some "Cron delivery to WhatsApp requires a recipient." ∧
        res.summary = summaryOfPayloads (out.payloads.getD [])) ∧
      (bestEffortOf job.payload = true →
        res.status = RunStatus.skipped ∧
        res.summary = some "Delivery skipped (no WhatsApp recipient).") ∧
      "recipient".data <:+: "Cron delivery to WhatsApp requires a recipient.".data ∧
      (∀ ev ∈ trace, isSendEvent ev = false) := by
  unfold runCronIsolatedAgentTurn
  rw [hreply]
  unfold runWithReply
  rw [hagent, hdeliver, hresolved]
  simp only []
  simp only [if_true]
  simp only [deliverPhase]
  refine ⟨_, _, rfl, ?_, ?_, by decide, ?_⟩
  · intro hbe
    rw [hbe]
    rw [if_neg (by simp)]
    exact ⟨rfl, rfl, rfl⟩
  · intro hbe
    rw [hbe]
    rw [if_pos rfl]
    exact ⟨rfl, rfl⟩
  · intro ev hev
    simp only [List.mem_cons, List.not_mem_nil, or_false] at hev
    rcases hev with rfl | rfl
    · rfl
    · rfl

/-- Claim C3 (witness): with an empty allowlist, an empty store and a job
requesting non-best-effort whatsapp delivery, the run errors asking for a
recipient while keeping the agent summary, and makes no send call. -/
theorem runCron_whatsapp_no_recipient_example :
    ∃ res trace,
      runCronIsolatedAgentTurn cfgBasic jobDeliverStrict "do it" "cron:job-1" (some "cron")
        [] oracleOkHello = Except.ok (res, trace) ∧
      (bestEffortOf jobDeliverStrict.payload = false →
        res.status = RunStatus.error ∧
        res.error = some "Cron delivery to WhatsApp requires a recipient." ∧
        res.summary = summaryOfPayloads
          ((AgentReplyResult.mk (some [{ text := some "hello" }])).payloads.getD [])) ∧
      (bestEffortOf jobDeliverStrict.payload = true →
        res.status = RunStatus.skipped ∧
        res.summary = some "Delivery skipped (no WhatsApp recipient).") ∧
      "recipient".data <:+: "Cron delivery to WhatsApp requires a recipient.".data ∧
      (∀ ev ∈ trace, isSendEvent ev = false) :=
  runCron_whatsapp_no_recipient cfgBasic jobDeliverStrict "do it" "cron:job-1" (some "cron")
    [] oracleOkHello replyCfgBasic (AgentReplyResult.mk (some [{ text := some "hello" }]))
    rfl rfl rfl rfl

/-- Claim C10: when delivery is requested and no recipient resolves, the
best-effort run is skipped with the fixed channel-specific notice as its
summary (the agent summary is discarded) and no error, while the
non-best-effort run errors with the channel-specific message and keeps the
extracted agent summary. -/
theorem runCron_no_recipient_policy (cfg : ClawdisConfig) (job : CronJob)
    (message sessionKey : String) (lane : Option String) (store : SessionStore)
    (o : RunOracles) (replyCfg : ReplyCfg) (out : AgentReplyResult)
    (hreply : assertCommandReplyConfig cfg = Except.ok replyCfg)
    (hagent : o.agentOutcome = Except.ok out)
    (hdeliver : deliveryRequested job.payload = true)
    (hto : (resolveDeliveryTarget cfg store (deliveryArgOf job.payload)).toRecipient = none) :
    ∃ res trace,
      runCronIsolatedAgentTurn cfg job message sessionKey lane store o =
        Except.ok (res, trace) ∧
      (bestEffortOf job.payload = true →
        res.status = RunStatus.skipped ∧
        res.summary = some (skipNoticeFor
          (resolveDeliveryTarget cfg store (deliveryArgOf job.payload)).channel) ∧
        res.error = none) ∧
      (bestEffortOf job.payload = false →
        res.status = RunStatus.error ∧
        res.summary = summaryOfPayloads (out.payloads.getD []) ∧
        res.error = some (missingRecipientErrorFor
          (resolveDeliveryTarget cfg store (deliveryArgOf job.payload)).channel)) := by
  unfold runCronIsolatedAgentTurn
  rw [hreply]
  unfold runWithReply
  rw [hagent, hdeliver]
  simp only []
  simp only [if_true]
  simp only [deliverPhase]
  rw [hto]
  simp only []
  refine ⟨_, _, rfl, ?_, ?_⟩
  · intro hbe
    rw [hbe]
    rw [if_pos rfl]
    exact ⟨rfl, rfl, rfl⟩
  · intro hbe
    rw [hbe]
    rw [if_neg (by simp)]
    exact ⟨rfl, rfl, rfl⟩

/-- Claim C10 (witness): the best-effort whatsapp run with no resolvable
recipient is skipped with the fixed whatsapp notice as its summary. -/
theorem runCron_no_recipient_policy_example :
    ∃ res trace,
      runCronIsolatedAgentTurn cfgBasic jobDeliverBestEffort "do it" "cron:job-1"
        (some "cron") [] oracleOkHello = Except.ok (res, trace) ∧
      (bestEffortOf jobDeliverBestEffort.payload = true →
        res.status = RunStatus.skipped ∧
        res.summary = some (skipNoticeFor
          (resolveDeliveryTarget cfgBasic []
            (deliveryArgOf jobDeliverBestEffort.payload)).channel) ∧
        res.error = none) ∧
      (bestEffortOf jobDeliverBestEffort.payload = false →
        res.status = RunStatus.error ∧
        res.summary = summaryOfPayloads
          ((AgentReplyResult.mk (some [{ text := some "hello" }])).payloads.getD []) ∧
        res.error = some (missingRecipientErrorFor
          (resolveDeliveryTarget cfgBasic []
            (deliveryArgOf jobDeliverBestEffort.payload)).channel)) :=
  runCron_no_recipient_policy cfgBasic jobDeliverBestEffort "do it" "cron:job-1" (some "cron")
    [] oracleOkHello replyCfgBasic (AgentReplyResult.mk (some [{ text := some "hello" }]))
    rfl rfl rfl rfl

/-- Claim C4: when the agent turn succeeded, delivery is requested, a
recipient resolved and a send call to the resolved channel throws, the run
keeps the extracted summary and has status error carrying the thrown error
when best effort is off, and status ok when best effort is on. -/
theorem runCron_send_failure_policy (cfg : ClawdisConfig) (job : CronJob)
    (message sessionKey : String) (lane : Option String) (store : SessionStore)
    (o : RunOracles) (replyCfg : ReplyCfg) (out : AgentReplyResult) (t err : String)
    (evs : List RunEvent)
    (hreply : assertCommandReplyConfig cfg = Except.ok replyCfg)
    (hagent : o.agentOutcome = Except.ok out)
    (hdeliver : deliveryRequested job.payload = true)
    (hto : (resolveDeliveryTarget cfg store (deliveryArgOf job.payload)).toRecipient = some t)
    (hsend : runSends o.sendOutcome 0
      (sendCallsFor o.chunkText
        (resolveDeliveryTarget cfg store (deliveryArgOf job.payload)).channel t
        (out.payloads.getD [])) = (evs, some err)) :
    ∃ res trace,
      runCronIsolatedAgentTurn cfg job message sessionKey lane store o =
        Except.ok (res, trace) ∧
      res.summary = summaryOfPayloads (out.payloads.getD []) ∧
      (bestEffortOf job.payload = false →
        res.status = RunStatus.error ∧ res.error = some err) ∧
      (bestEffortOf job.payload = true →
        res.status = RunStatus.ok ∧ res.error = none) := by
  unfold runCronIsolatedAgentTurn
  rw [hreply]
  unfold runWithReply
  rw [hagent, hdeliver]
  simp only []
  simp only [if_true]
  simp only [deliverPhase]
  rw [hto]
  simp only []
  rw [hsend]
  simp only []
  refine ⟨_, _, rfl, ?_, ?_, ?_⟩
  · cases hbe : bestEffortOf job.payload with
    | true => rw [if_pos rfl]
    | false => rw [if_neg (by simp)]
  · intro hbe
    rw [hbe]
    rw [if_neg (by simp)]
    exact ⟨rfl, rfl⟩
  · intro hbe
    rw [hbe]
    rw [if_pos rfl]
    exact ⟨rfl, rfl⟩

/-- Claim C4 (witness): with an allowlisted recipient and a send oracle that
throws on the first call, the non-best-effort run errors with the thrown
error while keeping the agent summary. -/
theorem runCron_send_failure_policy_example :
    ∃ res trace,
      runCronIsolatedAgentTurn cfgAllowOne jobDeliverListed "do it" "cron:job-1"
        (some "cron") [] oracleSendFail = Except.ok (res, trace) ∧
      res.summary = summaryOfPayloads
        ((AgentReplyResult.mk (some [{ text := some "hello" }])).payloads.getD []) ∧
      (bestEffortOf jobDeliverListed.payload = false →
        res.status = RunStatus.error ∧ res.error = some "Error: socket closed") ∧
      (bestEffortOf jobDeliverListed.payload = true →
        res.status = RunStatus.ok ∧ res.error = none) :=
  runCron_send_failure_policy cfgAllowOne jobDeliverListed "do it" "cron:job-1" (some "cron")
    [] oracleSendFail replyCfgBasic (AgentReplyResult.mk (some [{ text := some "hello" }]))
    "+15550001111" "Error: socket closed"
    [RunEvent.sendWhatsApp "+15550001111" "hello" none]
    rfl rfl rfl rfl rfl

/-- Claim C8: with the send-system-once policy enabled on a first turn, the
run saves the session entry with systemSent set to true strictly before the
agent command invocation event, for every agent outcome; when the agent
invocation throws, the run result is an error and the trace still begins
with that save. -/
theorem runCron_systemSent_persisted_before_invoke (cfg : ClawdisConfig) (job : CronJob)
    (message sessionKey : String) (lane : Option String) (store : SessionStore)
    (o : RunOracles) (replyCfg : ReplyCfg)
    (hreply : assertCommandReplyConfig cfg = Except.ok replyCfg)
    (honce : sendSystemOnceOf replyCfg = true)
    (hfirst : isFirstTurnOf cfg sessionKey store o = true) :
    ∃ res p st iv rest,
      runCronIsolatedAgentTurn cfg job message sessionKey lane store o =
        Except.ok (res, RunEvent.saveStore p st :: iv :: rest) ∧
      isAgentInvocation iv = true ∧
      (∃ en, lookupStore st sessionKey = some en ∧ en.systemSent = some true) ∧
      (∀ e, o.agentOutcome = Except.error e → res.status = RunStatus.error ∧ rest = []) := by
  unfold runCronIsolatedAgentTurn
  rw [hreply]
  unfold runWithReply
  simp only [honce, hfirst]
  cases hago : o.agentOutcome with
  | error e0 =>
      refine ⟨_, _, _, _, [], rfl, ?_, ⟨_, lookupStore_setStore_self _ _ _, ?_⟩, ?_⟩
      · rfl
      · rfl
      · intro e he
        exact ⟨rfl, rfl⟩
  | ok out =>
      simp only []
      cases hdel : deliveryRequested job.payload with
      | false =>
          refine ⟨_, _, _, _, [], rfl, ?_, ⟨_, lookupStore_setStore_self _ _ _, ?_⟩, ?_⟩
          · rfl
          · rfl
          · intro e he
            exact absurd he (by simp)
      | true =>
          rcases hdp : deliverPhase o (bestEffortOf job.payload)
              (summaryOfPayloads (out.payloads.getD []))
              (resolveDeliveryTarget cfg store (deliveryArgOf job.payload))
              (out.payloads.getD []) with ⟨over, sendEvs⟩
          cases over with
          | some r =>
              refine ⟨_, _, _, _, sendEvs, rfl, ?_,
                ⟨_, lookupStore_setStore_self _ _ _, ?_⟩, ?_⟩
              · rfl
              · rfl
              · intro e he
                exact absurd he (by simp)
          | none =>
              refine ⟨_, _, _, _, sendEvs, rfl, ?_,
                ⟨_, lookupStore_setStore_self _ _ _, ?_⟩, ?_⟩
              · rfl
              · rfl
              · intro e he
                exact absurd he (by simp)

/-- Claim C8 (witness): with the policy enabled and an empty store (a new
session), the concrete run saves systemSent true before the invocation
event. -/
theorem runCron_systemSent_persisted_before_invoke_example :
    ∃ res p st iv rest,
      runCronIsolatedAgentTurn cfgOnce jobNoDeliver "do it" "cron:job-1" (some "cron") []
        oracleOkHello = Except.ok (res, RunEvent.saveStore p st :: iv :: rest) ∧
      isAgentInvocation iv = true ∧
      (∃ en, lookupStore st "cron:job-1" = some en ∧ en.systemSent = some true) ∧
      (∀ e, oracleOkHello.agentOutcome = Except.error e →
        res.status = RunStatus.error ∧ rest = []) :=
  runCron_systemSent_persisted_before_invoke cfgOnce jobNoDeliver "do it" "cron:job-1"
    (some "cron") [] oracleOkHello replyCfgOnce rfl rfl rfl
